import Mathlib

/-!
# Random-walker segmentation front end: curvature term, builders, GUI wiring

A shallow embedding of the parts of the repository that the properties below
are about:

* `include/graph/weight/terms/curvature.h`   (the curvature weight term),
* `include/graph/nearest_neighbors_graph_builder.h` (neighbour-count accessors),
* `src/random_walker_segmentation_app.cpp`   (argument handling and the
  labelled output written by the save option),
* `gui/main_window.cpp` (builder selection, edge-weight wiring, configuration
  loading).

Numeric conventions.  Single and double precision values are embedded as
elements of a linearly ordered field (the rationals when a value has to be
computed); arithmetic is exact, so rounding, infinities and NaN are outside the
model.  `size_t` values are natural numbers, `int` values are integers.
-/

namespace Tcs

/-! ## Curvature weight term (`curvature.h`) -/

section Curvature

variable {K : Type} [LinearOrderedField K]

/-- The only field of a point the curvature term reads: `p.curvature`. -/
structure CurvaturePoint (K : Type) where
  curvature : K

/-- The functor `curvature_impl`: its single data member is `scale_`. -/
structure curvature_impl (K : Type) where
  scale_ : K

/-- The default of the keyword argument `curvature_scale`: `1.0f`. -/
def curvature_scale_default : K := 1

/-- The constructor `curvature_impl (args)`: `scale_ (args[curvature_scale | 1.0f])`.
The optional keyword argument is an `Option`; when absent the scale is `1`. -/
def curvature_impl.mk_args (curvature_scale : Option K) : curvature_impl K :=
  { scale_ := curvature_scale.getD curvature_scale_default }

/-- The call operator of `curvature_impl`:
`scale_ > 0.0f ? fabs (p1.curvature) * fabs (p2.curvature) / scale_ : 0.0f`. -/
def curvature_impl.call (c : curvature_impl K) (p1 p2 : CurvaturePoint K) : K :=
  if c.scale_ > 0 then |p1.curvature| * |p2.curvature| / c.scale_ else 0

end Curvature


/-! ## Labelled output of the application (`random_walker_segmentation_app.cpp`, save option) -/

/-- An input point (`pcl::PointXYZRGBA`): position and packed colour. -/
structure PointXYZRGBA where
  x : ℚ
  y : ℚ
  z : ℚ
  rgba : Nat
deriving DecidableEq

/-- An output point (`pcl::PointXYZL`): position and a 32-bit label. -/
structure PointXYZL where
  x : ℚ
  y : ℚ
  z : ℚ
  label : Nat
deriving DecidableEq

/-- The library call `pcl::copyPointCloud (*cloud, labeled)`: the output gets one
point per input point, the shared fields `x`, `y`, `z` are copied and the field
`label`, absent from the input, keeps its default `0`. -/
def copyPointCloud (cloud : List PointXYZRGBA) : List PointXYZL :=
  cloud.map fun p => { x := p.x, y := p.y, z := p.z, label := 0 }

/-- The part of the graph the save block reads: the `vertex_color` property,
one entry per vertex (vertex descriptors are the indices `0 .. n-1`). -/
structure Graph where
  vertex_color : List Nat
deriving DecidableEq

/-- The call `boost::num_vertices (graph)`. -/
def num_vertices (graph : Graph) : Nat := graph.vertex_color.length

/-- The call `boost::get (boost::vertex_color, graph, v)`. -/
def get_vertex_color (graph : Graph) (v : Nat) : Nat := graph.vertex_color.getD v 0

/-- The loop `for (size_t i = 0; i < labeled.size (); ++i)` of the save block,
started at index `i`.  Reading `point_to_vertex_map[i]` past the end of the
vector has no defined result and is reported as `none`. -/
def save_loop (graph : Graph) (point_to_vertex_map : List Nat) (i : Nat)
    (labeled : List PointXYZL) : Option (List PointXYZL) :=
  if h : i < labeled.length then
    match point_to_vertex_map[i]? with
    | some v =>
      if v ≥ num_vertices graph then
        save_loop graph point_to_vertex_map (i + 1)
          (labeled.set i { labeled[i] with label := 0 })
      else
        save_loop graph point_to_vertex_map (i + 1)
          (labeled.set i { labeled[i] with label := get_vertex_color graph v })
    | none => none
  else
    some labeled
termination_by labeled.length - i
decreasing_by
  all_goals simp_wf
  all_goals omega

/-- The body of `if (option_save)`: copy the cloud, fetch the point-to-vertex
map from the builder, label every point, and hand `labeled` to `savePCDFile`.
The result is the cloud that is written. -/
def save_labeled (cloud : List PointXYZRGBA) (graph : Graph)
    (point_to_vertex_map : List Nat) : Option (List PointXYZL) :=
  save_loop graph point_to_vertex_map 0 (copyPointCloud cloud)

/-! ## Nearest-neighbours graph builder (`nearest_neighbors_graph_builder.h`) -/

/-- The data members of `NearestNeighborsGraphBuilder`: the search object
(`search_`, a shared pointer, here an optional handle) and `num_neighbors_`. -/
structure NearestNeighborsGraphBuilder where
  search_ : Option Nat
  num_neighbors_ : Nat
deriving DecidableEq

namespace NearestNeighborsGraphBuilder

/-- The constructor `NearestNeighborsGraphBuilder (size_t num_neighbors = 14)`;
the defaulted argument is an `Option`.  The search pointer starts out null. -/
def new (num_neighbors : Option Nat) : NearestNeighborsGraphBuilder :=
  { search_ := none, num_neighbors_ := num_neighbors.getD 14 }

/-- The method `setSearchMethod (search)`: `search_ = search`. -/
def setSearchMethod (b : NearestNeighborsGraphBuilder) (search : Option Nat) :
    NearestNeighborsGraphBuilder :=
  { b with search_ := search }

/-- The method `setNumberOfNeighbors (num_neighbors)`: `num_neighbors_ = num_neighbors`. -/
def setNumberOfNeighbors (b : NearestNeighborsGraphBuilder) (num_neighbors : Nat) :
    NearestNeighborsGraphBuilder :=
  { b with num_neighbors_ := num_neighbors }

/-- The method `getNumberOfNeighbors ()`: `return num_neighbors_`. -/
def getNumberOfNeighbors (b : NearestNeighborsGraphBuilder) : Nat :=
  b.num_neighbors_

/-- One call of a setter of the builder. -/
inductive Call where
  | setSearchMethod (search : Option Nat)
  | setNumberOfNeighbors (num_neighbors : Nat)
deriving DecidableEq

/-- Perform one setter call. -/
def step (b : NearestNeighborsGraphBuilder) : Call → NearestNeighborsGraphBuilder
  | .setSearchMethod s => b.setSearchMethod s
  | .setNumberOfNeighbors n => b.setNumberOfNeighbors n

/-- Perform a sequence of setter calls, first call first. -/
def run (b : NearestNeighborsGraphBuilder) (calls : List Call) : NearestNeighborsGraphBuilder :=
  calls.foldl step b

/-- The argument of the most recent `setNumberOfNeighbors` call of a call
sequence, if there is one. -/
def lastNumberSet : List Call → Option Nat
  | [] => none
  | c :: cs =>
    match lastNumberSet cs with
    | some n => some n
    | none =>
      match c with
      | .setNumberOfNeighbors n => some n
      | .setSearchMethod _ => none

end NearestNeighborsGraphBuilder

/-! ## Main window (`gui/main_window.cpp`)

The widgets are Qt objects; only the values the functions read and write are
kept.  The setters `setValue`, `setCheckState` and `setCurrentIndex` are
embedded as storing their argument (the ranges the widgets clamp to are
declared in the form file, which is not among the sources). -/

/-- The enumeration `Qt::CheckState`. -/
inductive CheckState where
  | Unchecked
  | PartiallyChecked
  | Checked
deriving DecidableEq

namespace CheckState

/-- The integer value of a check state (`0`, `1`, `2`). -/
def toInt : CheckState → Int
  | Unchecked => 0
  | PartiallyChecked => 1
  | Checked => 2

/-- A check state used as a condition (`checkState () ? a : b`, `if (checkState ())`):
true when its integer value is not zero. -/
def isSet (s : CheckState) : Bool := s.toInt != 0

/-- The state a check box reports after `setCheckState (Qt::CheckState (n))`:
`0` unchecks it, `1` makes it partially checked, any other value checks it. -/
def ofInt (n : Int) : CheckState :=
  if n = 0 then Unchecked else if n = 1 then PartiallyChecked else Checked

end CheckState

/-- The values of the configuration widgets of the main window (`ui_->...`). -/
structure Ui_MainWindow where
  tabs_graph_builder : Int
  spinbox_voxel_resolution : ℚ
  spinbox_nearest_neighbors : Int
  spinbox_radius : ℚ
  spinbox_max_neighbors : Int
  checkbox_xyz : CheckState
  spinbox_xyz_influence : ℚ
  checkbox_xyz_only_concave : CheckState
  checkbox_normal : CheckState
  spinbox_normal_influence : ℚ
  checkbox_normal_only_concave : CheckState
  checkbox_curvature : CheckState
  spinbox_curvature_influence : ℚ
  checkbox_curvature_only_concave : CheckState
  checkbox_rgb : CheckState
  spinbox_rgb_influence : ℚ
  checkbox_rgb_only_concave : CheckState
deriving DecidableEq

/-! ### Edge weight computer as used by `computeEdgeWeights` -/

/-- The term tags `terms::XYZ`, `terms::Normal`, `terms::Curvature`, `terms::RGB`. -/
inductive TermTag where
  | XYZ
  | Normal
  | Curvature
  | RGB
deriving DecidableEq

/-- Modelled from the spec: the header `graph/edge_weight_computer.h` is not
among the sources; the normalization modes of a term are none, per-edge-local
and global-over-graph. -/
inductive NormalizationType where
  | NORMALIZATION_NONE
  | NORMALIZATION_GLOBAL
  | NORMALIZATION_LOCAL
deriving DecidableEq

/-- Modelled from the spec: the header `graph/edge_weight_computer.h` is not
among the sources; the small-weight policy the GUI selects coerces a weight
below the threshold up to the threshold. -/
inductive SmallWeightPolicy where
  | SMALL_WEIGHT_COERCE_TO_THRESHOLD
deriving DecidableEq

/-- One entry of the ordered list of active terms: the arguments of one
`addTerm<tag> (influence, multiplier [, normalization])` call.  An omitted
normalization argument is `none`. -/
structure Term where
  tag : TermTag
  influence : ℚ
  multiplier : ℚ
  normalization : Option NormalizationType
deriving DecidableEq

/-- Modelled from the spec: the class `EdgeWeightComputer` of
`graph/edge_weight_computer.h` (not among the sources) maintains an ordered
list of active terms and a small-weight threshold and policy; threshold and
policy are `none` until their setter is called. -/
structure EdgeWeightComputer where
  terms : List Term
  small_weight_threshold : Option ℚ
  small_weight_policy : Option SmallWeightPolicy
deriving DecidableEq

namespace EdgeWeightComputer

/-- A freshly constructed computer (`EWC computer;`): no terms. -/
def new : EdgeWeightComputer :=
  { terms := [], small_weight_threshold := none, small_weight_policy := none }

/-- The call `addTerm<tag> (influence, multiplier, normalization)`: the term is
appended to the list of active terms. -/
def addTerm (c : EdgeWeightComputer) (tag : TermTag) (influence multiplier : ℚ)
    (normalization : Option NormalizationType) : EdgeWeightComputer :=
  { c with terms := c.terms ++ [{ tag := tag, influence := influence,
                                  multiplier := multiplier, normalization := normalization }] }

/-- The call `setSmallWeightThreshold (threshold)`. -/
def setSmallWeightThreshold (c : EdgeWeightComputer) (threshold : ℚ) : EdgeWeightComputer :=
  { c with small_weight_threshold := some threshold }

/-- The call `setSmallWeightPolicy (policy)`. -/
def setSmallWeightPolicy (c : EdgeWeightComputer) (policy : SmallWeightPolicy) :
    EdgeWeightComputer :=
  { c with small_weight_policy := some policy }

end EdgeWeightComputer

/-- The function `MainWindow::computeEdgeWeights`.  The result is the computer
in the state in which `computer.compute (*graph_)` is invoked on it. -/
def computeEdgeWeights (ui : Ui_MainWindow) : EdgeWeightComputer :=
  let computer := EdgeWeightComputer.new
  let computer :=
    if ui.checkbox_xyz.isSet then
      let influence := ui.spinbox_xyz_influence
      let multiplier : ℚ := if ui.checkbox_xyz_only_concave.isSet then 0 else 1
      computer.addTerm TermTag.XYZ influence multiplier
        (some NormalizationType.NORMALIZATION_LOCAL)
    else computer
  let computer :=
    if ui.checkbox_normal.isSet then
      let influence := ui.spinbox_normal_influence
      let multiplier : ℚ := if ui.checkbox_normal_only_concave.isSet then 0 else 1
      computer.addTerm TermTag.Normal influence multiplier none
    else computer
  let computer :=
    if ui.checkbox_curvature.isSet then
      let influence := ui.spinbox_curvature_influence
      let multiplier : ℚ := if ui.checkbox_curvature_only_concave.isSet then 0 else 1
      computer.addTerm TermTag.Curvature influence multiplier none
    else computer
  let computer :=
    if ui.checkbox_rgb.isSet then
      let influence := ui.spinbox_rgb_influence
      let multiplier : ℚ := if ui.checkbox_rgb_only_concave.isSet then 0 else 1
      computer.addTerm TermTag.RGB influence multiplier
        (some NormalizationType.NORMALIZATION_GLOBAL)
    else computer
  let computer := computer.setSmallWeightThreshold (1 / 100000)
  let computer := computer.setSmallWeightPolicy SmallWeightPolicy.SMALL_WEIGHT_COERCE_TO_THRESHOLD
  computer

/-- The widgets a term of `computeEdgeWeights` belongs to: its enable check box. -/
def Ui_MainWindow.enabled (ui : Ui_MainWindow) : TermTag → CheckState
  | .XYZ => ui.checkbox_xyz
  | .Normal => ui.checkbox_normal
  | .Curvature => ui.checkbox_curvature
  | .RGB => ui.checkbox_rgb

/-- The influence spin box of a term. -/
def Ui_MainWindow.influence (ui : Ui_MainWindow) : TermTag → ℚ
  | .XYZ => ui.spinbox_xyz_influence
  | .Normal => ui.spinbox_normal_influence
  | .Curvature => ui.spinbox_curvature_influence
  | .RGB => ui.spinbox_rgb_influence

/-- The "only concave" check box of a term. -/
def Ui_MainWindow.only_concave (ui : Ui_MainWindow) : TermTag → CheckState
  | .XYZ => ui.checkbox_xyz_only_concave
  | .Normal => ui.checkbox_normal_only_concave
  | .Curvature => ui.checkbox_curvature_only_concave
  | .RGB => ui.checkbox_rgb_only_concave

/-! ### Builder selection in `onButtonUpdateGraphClicked` -/

/-- The conversion of an `int` argument to a `size_t` parameter (64 bit). -/
def size_t_of_int (n : Int) : Nat := (n % 2 ^ 64).toNat

/-- The search mode of a nearest-neighbours builder. -/
inductive SearchMode where
  | NearestK
  | Radius
deriving DecidableEq

/-- Modelled from the spec: the GUI calls `useNearestKSearch ()`, `setRadius (r)`
and `useRadiusSearch ()` on the nearest-neighbours builder, which the header
among the sources does not declare; the builder of the GUI is the builder of
the header together with a radius and a search mode (K nearest neighbours or
all neighbours within a radius, capped at the neighbour count), both `none`
until set. -/
structure NeighborsBuilder where
  base : NearestNeighborsGraphBuilder
  radius_ : Option ℚ
  search_mode_ : Option SearchMode
deriving DecidableEq

namespace NeighborsBuilder

/-- The expression `new Builder` (default construction). -/
def new : NeighborsBuilder :=
  { base := NearestNeighborsGraphBuilder.new none, radius_ := none, search_mode_ := none }

/-- The call `setNumberOfNeighbors (n)` with an `int` argument. -/
def setNumberOfNeighbors (b : NeighborsBuilder) (n : Int) : NeighborsBuilder :=
  { b with base := b.base.setNumberOfNeighbors (size_t_of_int n) }

/-- The call `setRadius (r)`. -/
def setRadius (b : NeighborsBuilder) (r : ℚ) : NeighborsBuilder :=
  { b with radius_ := some r }

/-- The call `useNearestKSearch ()`. -/
def useNearestKSearch (b : NeighborsBuilder) : NeighborsBuilder :=
  { b with search_mode_ := some SearchMode.NearestK }

/-- The call `useRadiusSearch ()`. -/
def useRadiusSearch (b : NeighborsBuilder) : NeighborsBuilder :=
  { b with search_mode_ := some SearchMode.Radius }

end NeighborsBuilder

/-- Modelled from the spec: the header `graph/voxel_grid_graph_builder.h` is not
among the sources; a voxel-grid builder is constructed from its resolution. -/
structure VoxelGridGraphBuilder where
  voxel_resolution_ : ℚ
deriving DecidableEq

/-- What a `GraphBuilder<PointT, Graph>::Ptr` can point to. -/
inductive GraphBuilder where
  | voxel_grid (b : VoxelGridGraphBuilder)
  | nearest_neighbors (b : NeighborsBuilder)
deriving DecidableEq

/-- The pointer `gb` of `MainWindow::onButtonUpdateGraphClicked` after the
`switch (ui_->tabs_graph_builder->currentIndex ())`; `none` is the null
pointer `gb` is initialised with.  The switch has the cases `0`, `1`, `2` and
no default. -/
def onButtonUpdateGraphClicked.gb (ui : Ui_MainWindow) : Option GraphBuilder :=
  if ui.tabs_graph_builder = 0 then
    let r := ui.spinbox_voxel_resolution
    some (GraphBuilder.voxel_grid { voxel_resolution_ := r })
  else if ui.tabs_graph_builder = 1 then
    let n := ui.spinbox_nearest_neighbors
    let graph_builder := NeighborsBuilder.new
    let graph_builder := graph_builder.setNumberOfNeighbors n
    let graph_builder := graph_builder.useNearestKSearch
    some (GraphBuilder.nearest_neighbors graph_builder)
  else if ui.tabs_graph_builder = 2 then
    let n := ui.spinbox_max_neighbors
    let r := ui.spinbox_radius
    let graph_builder := NeighborsBuilder.new
    let graph_builder := graph_builder.setNumberOfNeighbors n
    let graph_builder := graph_builder.setRadius r
    let graph_builder := graph_builder.useRadiusSearch
    some (GraphBuilder.nearest_neighbors graph_builder)
  else
    none

/-- The function `MainWindow::onButtonUpdateGraphClicked`: the builder that
`gb->setInputCloud (cloud_)` is called on and that builds the graph, and the
edge weight computer run by `computeEdgeWeights ()`.  The result is `none`
when `gb` is null at `gb->setInputCloud (cloud_)`, which has no defined
behaviour. -/
def onButtonUpdateGraphClicked (ui : Ui_MainWindow) : Option (GraphBuilder × EdgeWeightComputer) :=
  match onButtonUpdateGraphClicked.gb ui with
  | none => none
  | some gb => some (gb, computeEdgeWeights ui)

/-! ### Configuration file (`loadConfig`) -/

/-- A value stored in a property tree read from JSON: a number or some other text. -/
inductive PtValue where
  | number (q : ℚ)
  | text (s : String)
deriving DecidableEq

/-- A property tree (`boost::property_tree::ptree`) as the list of its paths
with their values. -/
abbrev ptree := List (String × PtValue)

/-- The value stored under a path, if any. -/
def ptree.find (pt : ptree) (path : String) : Option PtValue :=
  match pt with
  | [] => none
  | (k, v) :: rest => if k = path then some v else ptree.find rest path

/-- The call `pt.get (path, default_value)` with an `int` default: the stored
value when it reads as an `int`, otherwise the default. -/
def ptree.get_int (pt : ptree) (path : String) (default_value : Int) : Int :=
  match pt.find path with
  | some (PtValue.number q) =>
    if q.den = 1 ∧ -(2 : Int) ^ 31 ≤ q.num ∧ q.num < (2 : Int) ^ 31 then q.num else default_value
  | _ => default_value

/-- The call `pt.get (path, default_value)` with a `double` default: the stored
value when it reads as a number, otherwise the default. -/
def ptree.get_double (pt : ptree) (path : String) (default_value : ℚ) : ℚ :=
  match pt.find path with
  | some (PtValue.number q) => q
  | _ => default_value

/-- The function `MainWindow::loadConfig`.  The argument `file` is the outcome
of `read_json ("config.json", pt)`: `Except.error` when it throws a
`std::runtime_error` (missing or malformed file), otherwise the tree read. -/
def loadConfig (file : Except String ptree) (ui : Ui_MainWindow) : Ui_MainWindow :=
  match file with
  | Except.error _ => ui
  | Except.ok pt =>
    let ui := { ui with tabs_graph_builder := pt.get_int "GraphBuilder.Type" 0 }
    let ui := { ui with
      spinbox_voxel_resolution := pt.get_double "GraphBuilder.VoxelGrid.Resolution" (5 / 1000) }
    let ui := { ui with
      spinbox_nearest_neighbors := pt.get_int "GraphBuilder.KNN.NearestNeighbors" 15 }
    let ui := { ui with spinbox_radius := pt.get_double "GraphBuilder.Radius.Radius" (1 / 100) }
    let ui := { ui with
      spinbox_max_neighbors := pt.get_int "GraphBuilder.Radius.MaxNeighbors" 10 }
    let ui := { ui with
      checkbox_xyz := CheckState.ofInt (pt.get_int "EdgeWeights.XYZ.Enabled" 2) }
    let ui := { ui with
      spinbox_xyz_influence := pt.get_double "EdgeWeights.XYZ.Influence" 3 }
    let ui := { ui with
      checkbox_rgb_only_concave := CheckState.ofInt (pt.get_int "EdgeWeights.XYZ.OnlyConcave" 0) }
    let ui := { ui with
      checkbox_normal := CheckState.ofInt (pt.get_int "EdgeWeights.Normal.Enabled" 2) }
    let ui := { ui with
      spinbox_normal_influence := pt.get_double "EdgeWeights.Normal.Influence" (1 / 100) }
    let ui := { ui with
      checkbox_normal_only_concave :=
        CheckState.ofInt (pt.get_int "EdgeWeights.Normal.OnlyConcave" 2) }
    let ui := { ui with
      checkbox_curvature := CheckState.ofInt (pt.get_int "EdgeWeights.Curvature.Enabled" 2) }
    let ui := { ui with
      spinbox_curvature_influence := pt.get_double "EdgeWeights.Curvature.Influence" (1 / 10000) }
    let ui := { ui with
      checkbox_curvature_only_concave :=
        CheckState.ofInt (pt.get_int "EdgeWeights.Curvature.OnlyConcave" 2) }
    let ui := { ui with
      checkbox_rgb := CheckState.ofInt (pt.get_int "EdgeWeights.RGB.Enabled" 2) }
    let ui := { ui with
      spinbox_rgb_influence := pt.get_double "EdgeWeights.RGB.Influence" 3 }
    let ui := { ui with
      checkbox_rgb_only_concave := CheckState.ofInt (pt.get_int "EdgeWeights.RGB.OnlyConcave" 0) }
    ui

/-! ## Argument handling of the application (`random_walker_segmentation_app.cpp`, `main`) -/

/-- The loop of the library function `pcl::console::find_argument`: the index of
the first of the remaining arguments equal to `argument_name` (compared with
`strcmp`), `-1` when there is none.  `i` is the index of the head of the list. -/
def find_argument.loop (argument_name : String) : Nat → List String → Int
  | _, [] => -1
  | i, a :: rest =>
    if a = argument_name then (i : Int) else find_argument.loop argument_name (i + 1) rest

/-- The library function `pcl::console::find_argument (argc, argv, name)`: the
search starts at `argv[1]`. -/
def find_argument (argv : List String) (argument_name : String) : Int :=
  find_argument.loop argument_name 1 (argv.drop 1)

/-- The library function `pcl::console::find_switch (argc, argv, name)`. -/
def find_switch (argv : List String) (argument_name : String) : Bool :=
  find_argument argv argument_name != -1

/-- The library function `pcl::console::parse (argc, argv, name, val)` for a
string: the argument following `name` when there is one, otherwise `val`. -/
def parse_argument (argv : List String) (argument_name : String) (val : String) : String :=
  let index := find_argument argv argument_name + 1
  if 0 < index ∧ index < (argv.length : Int) then argv.getD index.toNat val else val

/-- The externally visible steps of `main`, in the order of the source. -/
inductive Event where
  | print_usage
  | load (filename : String)
  | print_no_gui_error
  | instantiate_weight_computer
  | instantiate_graph_builder
  | create_viewer (gui : Bool)
  | build_graph
  | compute_normals_and_curvatures
  | compute_signed_curvatures
  | compute_edge_weights
  | load_seeds (filename : String)
  | wait_points_selected
  | save_seeds (filename : String)
  | segment (mode_potential : Bool)
  | show_potentials
  | run_viewer
  | save_clusters
  | save_labeled
deriving DecidableEq

/-- The function `main`: its exit code and the steps it performs, in order.
`load_ok filename` tells whether `load<PointT> (filename, cloud, normals)`
succeeds.  The list `argv` holds `argv[0] .. argv[argc-1]`. -/
def main (argv : List String) (load_ok : String → Bool) : Int × List Event :=
  let argc := argv.length
  if argc < 2 ∨ find_switch argv "--help" = true then
    (1, [Event.print_usage])
  else
    let trace := [Event.load (argv.getD 1 "")]
    if !load_ok (argv.getD 1 "") then
      (1, trace)
    else
      let option_save_seeds := find_switch argv "--save-seeds"
      let option_load_seeds := find_switch argv "--load-seeds"
      let mode_potential := find_switch argv "--potential"
      let seeds_save_filename :=
        if option_save_seeds then parse_argument argv "--save-seeds" "" else ""
      let seeds_load_filename :=
        if option_load_seeds then parse_argument argv "--load-seeds" "" else ""
      let option_save := find_switch argv "--save"
      let option_save_clusters := find_switch argv "--save-clusters"
      let mode_no_gui := find_switch argv "--no-gui"
      if mode_no_gui && !option_load_seeds then
        (2, trace ++ [Event.print_no_gui_error])
      else
        let trace := trace ++ [Event.instantiate_weight_computer, Event.instantiate_graph_builder,
          Event.create_viewer (!mode_no_gui), Event.build_graph,
          Event.compute_normals_and_curvatures, Event.compute_signed_curvatures,
          Event.compute_edge_weights]
        let trace :=
          if option_load_seeds then trace ++ [Event.load_seeds seeds_load_filename]
          else if option_save_seeds then
            trace ++ [Event.wait_points_selected, Event.save_seeds seeds_save_filename]
          else trace ++ [Event.wait_points_selected]
        let trace := trace ++ [Event.segment mode_potential]
        let trace :=
          if mode_potential then trace ++ [Event.show_potentials]
          else trace ++ [Event.run_viewer]
        let trace := if option_save_clusters then trace ++ [Event.save_clusters] else trace
        let trace := if option_save then trace ++ [Event.save_labeled] else trace
        (0, trace)

/-- A state of the configuration widgets: the values `loadConfig` falls back to. -/
def Ui_MainWindow.defaults : Ui_MainWindow :=
  { tabs_graph_builder := 0
    spinbox_voxel_resolution := 5 / 1000
    spinbox_nearest_neighbors := 15
    spinbox_radius := 1 / 100
    spinbox_max_neighbors := 10
    checkbox_xyz := CheckState.Checked
    spinbox_xyz_influence := 3
    checkbox_xyz_only_concave := CheckState.Unchecked
    checkbox_normal := CheckState.Checked
    spinbox_normal_influence := 1 / 100
    checkbox_normal_only_concave := CheckState.Checked
    checkbox_curvature := CheckState.Checked
    spinbox_curvature_influence := 1 / 10000
    checkbox_curvature_only_concave := CheckState.Checked
    checkbox_rgb := CheckState.Checked
    spinbox_rgb_influence := 3
    checkbox_rgb_only_concave := CheckState.Unchecked }

/-! ### Configuration file (`saveConfig`) -/

/-- The call `pt.put (path, value)`: the value stored under the path is
replaced, or the path is added when the tree does not hold it yet. -/
def ptree.put (pt : ptree) (path : String) (value : PtValue) : ptree :=
  match pt with
  | [] => [(path, value)]
  | (k, v) :: rest =>
    if k = path then (k, value) :: rest else (k, v) :: ptree.put rest path value

/-- The function `MainWindow::saveConfig`.  The result is the tree handed to
`write_json ("config.json", pt)`.  Integers and check states are written as
their integer value. -/
def saveConfig (ui : Ui_MainWindow) : ptree :=
  let pt : ptree := []
  let pt := pt.put "GraphBuilder.Type" (PtValue.number ui.tabs_graph_builder)
  let pt := pt.put "GraphBuilder.VoxelGrid.Resolution" (PtValue.number ui.spinbox_voxel_resolution)
  let pt := pt.put "GraphBuilder.KNN.NearestNeighbors"
    (PtValue.number ui.spinbox_nearest_neighbors)
  let pt := pt.put "GraphBuilder.Radius.Radius" (PtValue.number ui.spinbox_radius)
  let pt := pt.put "GraphBuilder.Radius.MaxNeighbors" (PtValue.number ui.spinbox_max_neighbors)
  let pt := pt.put "EdgeWeights.XYZ.Enabled" (PtValue.number ui.checkbox_xyz.toInt)
  let pt := pt.put "EdgeWeights.XYZ.Influence" (PtValue.number ui.spinbox_xyz_influence)
  let pt := pt.put "EdgeWeights.XYZ.OnlyConcave"
    (PtValue.number ui.checkbox_rgb_only_concave.toInt)
  let pt := pt.put "EdgeWeights.Normal.Enabled" (PtValue.number ui.checkbox_normal.toInt)
  let pt := pt.put "EdgeWeights.Normal.Influence" (PtValue.number ui.spinbox_normal_influence)
  let pt := pt.put "EdgeWeights.Normal.OnlyConcave"
    (PtValue.number ui.checkbox_normal_only_concave.toInt)
  let pt := pt.put "EdgeWeights.Curvature.Enabled" (PtValue.number ui.checkbox_curvature.toInt)
  let pt := pt.put "EdgeWeights.Curvature.Influence"
    (PtValue.number ui.spinbox_curvature_influence)
  let pt := pt.put "EdgeWeights.Curvature.OnlyConcave"
    (PtValue.number ui.checkbox_curvature_only_concave.toInt)
  let pt := pt.put "EdgeWeights.RGB.Enabled" (PtValue.number ui.checkbox_rgb.toInt)
  let pt := pt.put "EdgeWeights.RGB.Influence" (PtValue.number ui.spinbox_rgb_influence)
  let pt := pt.put "EdgeWeights.RGB.OnlyConcave"
    (PtValue.number ui.checkbox_rgb_only_concave.toInt)
  pt

/-- Writing `config.json` with `saveConfig` in the state `s` and then reading
it with `loadConfig` in the state `t`; `read_json` returns the tree that
`write_json` wrote. -/
def save_then_load (s t : Ui_MainWindow) : Ui_MainWindow :=
  loadConfig (Except.ok (saveConfig s)) t

/-! ## Potential display of the application (`main`, block `if (mode_potential)`) -/

/-- The call `rws.getPotentials ().col (j)` on a potential matrix given as the
list of its columns; `none` when the matrix has no column `j`. -/
def col (potentials : List (List ℚ)) (j : Nat) : Option (List ℚ) := potentials[j]?

/-- The body of `while (viewer->waitPointSelected (index))` for one picked
vertex `index`: the vector `potential` that is displayed afterwards.  For the
colour `0` only a warning is printed; otherwise `potential` becomes column
`color - 1`.  The result is `none` when that column does not exist. -/
def potential_step (graph : Graph) (potentials : List (List ℚ)) (potential : List ℚ)
    (index : Nat) : Option (List ℚ) :=
  let color := get_vertex_color graph index
  if color = 0 then some potential
  else col potentials (color - 1)

/-- The loop `while (viewer->waitPointSelected (index))`: `picks` are the
vertices picked until the viewer is closed. -/
def potential_loop (graph : Graph) (potentials : List (List ℚ)) :
    List ℚ → List Nat → Option (List ℚ)
  | potential, [] => some potential
  | potential, index :: picks =>
    match potential_step graph potentials potential index with
    | none => none
    | some potential => potential_loop graph potentials potential picks

/-- The block `if (mode_potential)`: the displayed vector starts as column `0`
and then follows the picked vertices. -/
def show_potentials (graph : Graph) (potentials : List (List ℚ)) (picks : List Nat) :
    Option (List ℚ) :=
  match col potentials 0 with
  | none => none
  | some potential => potential_loop graph potentials potential picks

/-! ## Cluster files of the application (`main`, block `if (option_save_clusters)`) -/

/-- The structure `pcl::PointIndices`: the indices of the points of one cluster. -/
structure PointIndices where
  indices : List Int
deriving DecidableEq

/-- What one iteration of the save-clusters loop does: it reads `clusters[i]`
and possibly writes the file `cluster<i>.pcd`. -/
inductive ClusterEvent where
  | access (i : Nat)
  | save (i : Nat)
deriving DecidableEq

/-- The subtraction `a - b` of two `size_t` values (64 bit, wrapping). -/
def size_t_sub (a b : Nat) : Nat := (a + 2 ^ 64 - b % 2 ^ 64) % 2 ^ 64

/-- The loop `for (size_t i = ...; i < bound; ++i)` of the save-clusters block,
started at `i`, with `bound` the value of `clusters.size () - 1`.  The result
lists the accesses `clusters[i]` and the files written, in order.  An access
past the end of the vector has no defined behaviour; the list ends with it. -/
def save_clusters_loop (clusters : List PointIndices) (bound : Nat) (i : Nat) :
    List ClusterEvent :=
  if i < bound then
    match clusters[i]? with
    | some c =>
      if c.indices.length ≠ 0 then
        ClusterEvent.access i :: ClusterEvent.save i :: save_clusters_loop clusters bound (i + 1)
      else
        ClusterEvent.access i :: save_clusters_loop clusters bound (i + 1)
    | none => [ClusterEvent.access i]
  else
    []
termination_by bound - i

/-- The block `if (option_save_clusters)`: the loop runs from `0` with the bound
`clusters.size () - 1` computed in `size_t`. -/
def save_clusters (clusters : List PointIndices) : List ClusterEvent :=
  save_clusters_loop clusters (size_t_sub clusters.length 1) 0

/-! ## Theorems -/

section CurvatureTheorems

variable {K : Type} [LinearOrderedField K]

/-- C1: for every scale (positive, zero or negative) and every pair of points
(curvatures of either sign) the curvature term returns a value that is at
least zero. -/
theorem curvature_call_nonneg (c : curvature_impl K) (p1 p2 : CurvaturePoint K) :
    0 ≤ c.call p1 p2 := by
  unfold curvature_impl.call
  split_ifs with h
  · exact div_nonneg (mul_nonneg (abs_nonneg _) (abs_nonneg _)) h.le
  · exact le_refl 0

/-- C2: the curvature term is symmetric in its two endpoints, for every scale. -/
theorem curvature_call_symm (c : curvature_impl K) (p1 p2 : CurvaturePoint K) :
    c.call p1 p2 = c.call p2 p1 := by
  unfold curvature_impl.call
  rw [mul_comm |p1.curvature| |p2.curvature|]

/-- C3: over positive scales the curvature distance is monotonically
non-increasing in the scale: if `0 < s1 ≤ s2` then the distance computed with
scale `s2` is at most the distance computed with scale `s1`. -/
theorem curvature_call_antitone_scale (s1 s2 : K) (p1 p2 : CurvaturePoint K)
    (h1 : 0 < s1) (h12 : s1 ≤ s2) :
    (curvature_impl.mk_args (some s2)).call p1 p2 ≤
      (curvature_impl.mk_args (some s1)).call p1 p2 := by
  have h2 : 0 < s2 := lt_of_lt_of_le h1 h12
  simp only [curvature_impl.call, curvature_impl.mk_args, Option.getD_some, gt_iff_lt, h1, h2,
    if_true]
  exact div_le_div_of_nonneg_left (mul_nonneg (abs_nonneg _) (abs_nonneg _)) h1 h12

/-- Witness for C3 at scales `2 ≤ 4` and curvatures `-3`, `5` over the rationals. -/
theorem curvature_call_antitone_scale_witness :
    (0 : ℚ) < 2 ∧ (2 : ℚ) ≤ 4 ∧
      (curvature_impl.mk_args (some (4 : ℚ))).call ⟨-3⟩ ⟨5⟩ ≤
        (curvature_impl.mk_args (some (2 : ℚ))).call ⟨-3⟩ ⟨5⟩ :=
  ⟨by norm_num, by norm_num,
    curvature_call_antitone_scale (2 : ℚ) 4 ⟨-3⟩ ⟨5⟩ (by norm_num) (by norm_num)⟩

/-- C10: the curvature term equals `|c1| * |c2| / s` for a positive scale `s` and
`0` for a scale that is zero or negative (the division is guarded by the test
`s > 0`); with the default scale it equals `|c1| * |c2|`; and it is `0` as soon
as one of the two curvatures is `0`. -/
theorem curvature_call_values (c : curvature_impl K) (p1 p2 : CurvaturePoint K) :
    (0 < c.scale_ → c.call p1 p2 = |p1.curvature| * |p2.curvature| / c.scale_) ∧
    (c.scale_ ≤ 0 → c.call p1 p2 = 0) ∧
    (curvature_impl.mk_args none).call p1 p2 = |p1.curvature| * |p2.curvature| ∧
    (p1.curvature = 0 ∨ p2.curvature = 0 → c.call p1 p2 = 0) := by
  refine ⟨?_, ?_, ?_, ?_⟩
  · intro h
    simp only [curvature_impl.call, gt_iff_lt, h, if_true]
  · intro h
    simp only [curvature_impl.call, gt_iff_lt, not_lt.mpr h, if_false]
  · simp only [curvature_impl.call, curvature_impl.mk_args, Option.getD_none,
      curvature_scale_default, gt_iff_lt, zero_lt_one, if_true, div_one]
  · intro h
    unfold curvature_impl.call
    split_ifs
    · rcases h with h | h <;> simp [h]
    · rfl

/-- Witness for C10 over the rationals: scale `2` with curvatures `-3` and `5`
gives `15 / 2`, scale `-1` gives `0`, and a zero curvature gives `0`. -/
theorem curvature_call_values_witness :
    (curvature_impl.mk (2 : ℚ)).call ⟨-3⟩ ⟨5⟩ = |(-3 : ℚ)| * |(5 : ℚ)| / 2 ∧
    (curvature_impl.mk (-1 : ℚ)).call ⟨-3⟩ ⟨5⟩ = 0 ∧
    (curvature_impl.mk (2 : ℚ)).call ⟨0⟩ ⟨5⟩ = 0 :=
  ⟨(curvature_call_values (curvature_impl.mk (2 : ℚ)) ⟨-3⟩ ⟨5⟩).1 (by norm_num),
   (curvature_call_values (curvature_impl.mk (-1 : ℚ)) ⟨-3⟩ ⟨5⟩).2.1 (by norm_num),
   (curvature_call_values (curvature_impl.mk (2 : ℚ)) ⟨0⟩ ⟨5⟩).2.2.2 (Or.inl rfl)⟩

end CurvatureTheorems

/-! ### Labelled output -/

/-- The copy made by `copyPointCloud` has one point per input point. -/
theorem length_copyPointCloud (cloud : List PointXYZRGBA) :
    (copyPointCloud cloud).length = cloud.length := by
  simp [copyPointCloud]

/-- Loop invariant of `save_loop`: started at index `i` on a list no longer than
the point-to-vertex map, the loop terminates with a list of the same length in
which every entry from `i` on carries the label decided by the map and every
entry before `i` is untouched. -/
theorem save_loop_spec (graph : Graph) (p2v : List Nat) :
    ∀ (n i : Nat) (labeled : List PointXYZL),
      labeled.length - i = n → labeled.length ≤ p2v.length →
      ∃ out, save_loop graph p2v i labeled = some out ∧ out.length = labeled.length ∧
        ∀ j, out[j]? =
          if i ≤ j then
            (labeled[j]?).map fun p =>
              { p with label := if p2v.getD j 0 ≥ num_vertices graph then 0
                                else get_vertex_color graph (p2v.getD j 0) }
          else labeled[j]? := by
  intro n
  induction n with
  | zero =>
    intro i labeled hn _
    have hi : ¬ i < labeled.length := by omega
    refine ⟨labeled, ?_, rfl, ?_⟩
    · rw [save_loop]; simp [hi]
    · intro j
      by_cases hij : i ≤ j
      · have : labeled.length ≤ j := by omega
        rw [if_pos hij, List.getElem?_eq_none this]
        rfl
      · rw [if_neg hij]
  | succ n ih =>
    intro i labeled hn hlen
    have hi : i < labeled.length := by omega
    have hv : i < p2v.length := by omega
    have hget : p2v[i]? = some p2v[i] := List.getElem?_eq_getElem hv
    have hD : p2v.getD i 0 = p2v[i] := by simp [List.getD, hget]
    obtain ⟨out, hout, hlen2, hspec⟩ := ih (i + 1)
      (labeled.set i { labeled[i] with
        label := if p2v[i] ≥ num_vertices graph then 0 else get_vertex_color graph p2v[i] })
      (by simp; omega) (by simpa using hlen)
    refine ⟨out, ?_, by simpa using hlen2, ?_⟩
    · rw [save_loop]
      simp only [hi, dite_true, hget]
      by_cases hc : p2v[i] ≥ num_vertices graph
      · simpa [hc] using hout
      · simpa [hc] using hout
    · intro j
      rw [hspec j]
      by_cases hji : j = i
      · subst hji
        simp [hi, hget]
      · by_cases hlt : i ≤ j
        · have h1 : i + 1 ≤ j := by omega
          simp [h1, hlt, List.getElem?_set, Ne.symm hji]
        · have h1 : ¬ i + 1 ≤ j := by omega
          simp [h1, hlt, List.getElem?_set, Ne.symm hji]

/-- C4: when the point-to-vertex map is at least as long as the cloud, the save
block produces a labelled cloud with exactly one entry per input point, and for
every point index `i` the label is `0` if `point_to_vertex_map[i]` is at least
`num_vertices (graph)` and the `vertex_color` of vertex
`point_to_vertex_map[i]` otherwise. -/
theorem save_labeled_labels (cloud : List PointXYZRGBA) (graph : Graph)
    (point_to_vertex_map : List Nat) (hmap : cloud.length ≤ point_to_vertex_map.length) :
    ∃ labeled, save_labeled cloud graph point_to_vertex_map = some labeled ∧
      labeled.length = cloud.length ∧
      ∀ i, i < cloud.length →
        ∃ v p, point_to_vertex_map[i]? = some v ∧ labeled[i]? = some p ∧
          (v ≥ num_vertices graph → p.label = 0) ∧
          (v < num_vertices graph → p.label = get_vertex_color graph v) := by
  obtain ⟨out, hout, hlen, hspec⟩ :=
    save_loop_spec graph point_to_vertex_map (copyPointCloud cloud).length 0
      (copyPointCloud cloud) rfl (by rw [length_copyPointCloud]; exact hmap)
  rw [length_copyPointCloud] at hlen
  refine ⟨out, hout, hlen, ?_⟩
  intro i hi
  have hv : i < point_to_vertex_map.length := by omega
  have hget : point_to_vertex_map[i]? = some point_to_vertex_map[i] :=
    List.getElem?_eq_getElem hv
  have hD : point_to_vertex_map.getD i 0 = point_to_vertex_map[i] := by simp [List.getD, hget]
  have hc : i < (copyPointCloud cloud).length := by rw [length_copyPointCloud]; exact hi
  have hj := hspec i
  rw [List.getElem?_eq_getElem hc] at hj
  simp only [Nat.zero_le, if_true, Option.map_some, hD] at hj
  refine ⟨point_to_vertex_map[i], _, hget, hj, ?_, ?_⟩
  · intro h
    simp [h]
  · intro h
    have : ¬ point_to_vertex_map[i] ≥ num_vertices graph := by omega
    simp [this]

/-- Witness for C4: a cloud of two points, a graph of two vertices with labels
`7` and `9`, and the map `[1, 5]` (the second point has no vertex). -/
theorem save_labeled_labels_witness :
    ([⟨0, 0, 0, 255⟩, ⟨1, 2, 3, 0⟩] : List PointXYZRGBA).length ≤ ([1, 5] : List Nat).length ∧
    ∃ labeled, save_labeled [⟨0, 0, 0, 255⟩, ⟨1, 2, 3, 0⟩] ⟨[7, 9]⟩ [1, 5] = some labeled ∧
      labeled.length = ([⟨0, 0, 0, 255⟩, ⟨1, 2, 3, 0⟩] : List PointXYZRGBA).length ∧
      ∀ i, i < ([⟨0, 0, 0, 255⟩, ⟨1, 2, 3, 0⟩] : List PointXYZRGBA).length →
        ∃ v p, ([1, 5] : List Nat)[i]? = some v ∧ labeled[i]? = some p ∧
          (v ≥ num_vertices ⟨[7, 9]⟩ → p.label = 0) ∧
          (v < num_vertices ⟨[7, 9]⟩ → p.label = get_vertex_color ⟨[7, 9]⟩ v) :=
  ⟨by decide, save_labeled_labels [⟨0, 0, 0, 255⟩, ⟨1, 2, 3, 0⟩] ⟨[7, 9]⟩ [1, 5] (by decide)⟩


/-! ### Nearest-neighbours builder accessors -/

/-- After a sequence of setter calls the neighbour count is the argument of the
most recent `setNumberOfNeighbors` call, or the count before the sequence when
the sequence has no such call. -/
theorem getNumberOfNeighbors_run_aux (calls : List NearestNeighborsGraphBuilder.Call) :
    ∀ b : NearestNeighborsGraphBuilder,
      (b.run calls).getNumberOfNeighbors =
        (NearestNeighborsGraphBuilder.lastNumberSet calls).getD b.getNumberOfNeighbors := by
  induction calls with
  | nil => intro b; rfl
  | cons c cs ih =>
    intro b
    have hrun : b.run (c :: cs) = (b.step c).run cs := rfl
    rw [hrun, ih]
    cases hl : NearestNeighborsGraphBuilder.lastNumberSet cs with
    | some n => simp [NearestNeighborsGraphBuilder.lastNumberSet, hl]
    | none =>
      cases c with
      | setSearchMethod s => simp [NearestNeighborsGraphBuilder.lastNumberSet, hl]; rfl
      | setNumberOfNeighbors n => simp [NearestNeighborsGraphBuilder.lastNumberSet, hl]; rfl

/-- C8: `getNumberOfNeighbors` returns the argument of the most recent
`setNumberOfNeighbors` call (for every argument, `0` included), the constructor
argument when no setter was called (`14` for a default-constructed builder),
and `setSearchMethod` does not change it. -/
theorem getNumberOfNeighbors_spec :
    (∀ (b : NearestNeighborsGraphBuilder) (n : Nat),
        (b.setNumberOfNeighbors n).getNumberOfNeighbors = n) ∧
    (∀ n : Nat, (NearestNeighborsGraphBuilder.new (some n)).getNumberOfNeighbors = n) ∧
    (NearestNeighborsGraphBuilder.new none).getNumberOfNeighbors = 14 ∧
    (∀ (b : NearestNeighborsGraphBuilder) (search : Option Nat),
        (b.setSearchMethod search).getNumberOfNeighbors = b.getNumberOfNeighbors) ∧
    (∀ (num_neighbors : Option Nat) (calls : List NearestNeighborsGraphBuilder.Call),
        ((NearestNeighborsGraphBuilder.new num_neighbors).run calls).getNumberOfNeighbors =
          (NearestNeighborsGraphBuilder.lastNumberSet calls).getD (num_neighbors.getD 14)) := by
  refine ⟨fun _ _ => rfl, fun _ => rfl, rfl, fun _ _ => rfl, ?_⟩
  intro num_neighbors calls
  rw [getNumberOfNeighbors_run_aux]
  rfl

/-! ### Main window -/

/-- C7: when reading `config.json` raises a runtime error, `loadConfig` leaves
every setting as it was; no default value is substituted. -/
theorem loadConfig_read_error (e : String) (ui : Ui_MainWindow) :
    loadConfig (Except.error e) ui = ui := rfl

/-- By contrast, a configuration file that is read but holds none of the
settings does substitute the defaults written in `loadConfig`. -/
theorem loadConfig_empty_tree (ui : Ui_MainWindow) :
    (loadConfig (Except.ok []) ui).spinbox_nearest_neighbors = 15 ∧
    (loadConfig (Except.ok []) ui).tabs_graph_builder = 0 ∧
    (loadConfig (Except.ok []) ui).checkbox_xyz = CheckState.Checked := by
  refine ⟨rfl, rfl, ?_⟩
  simp [loadConfig, ptree.get_int, ptree.find, CheckState.ofInt]


/-- A check state counts as set in a condition exactly when it is not `Unchecked`. -/
theorem CheckState.isSet_iff (s : CheckState) : s.isSet = true ↔ s ≠ CheckState.Unchecked := by
  cases s <;> simp [CheckState.isSet, CheckState.toInt]

/-- C5: for each of the four terms, `computeEdgeWeights` makes exactly one
`addTerm` call for it when the term is enabled (and none otherwise); the
influence passed is the value of that term's own influence spin box, and the
concavity multiplier passed is `0` when that term's own "only concave" check
box is set and `1` when it is not. -/
theorem computeEdgeWeights_term_arguments (ui : Ui_MainWindow) (tag : TermTag) :
    (((computeEdgeWeights ui).terms.filter (fun t => decide (t.tag = tag))).map
        fun t => (t.influence, t.multiplier)) =
      if ui.enabled tag ≠ CheckState.Unchecked then
        [(ui.influence tag, if ui.only_concave tag ≠ CheckState.Unchecked then 0 else 1)]
      else [] := by
  have h1 := CheckState.isSet_iff ui.checkbox_xyz
  have h2 := CheckState.isSet_iff ui.checkbox_normal
  have h3 := CheckState.isSet_iff ui.checkbox_curvature
  have h4 := CheckState.isSet_iff ui.checkbox_rgb
  have k1 := CheckState.isSet_iff ui.checkbox_xyz_only_concave
  have k2 := CheckState.isSet_iff ui.checkbox_normal_only_concave
  have k3 := CheckState.isSet_iff ui.checkbox_curvature_only_concave
  have k4 := CheckState.isSet_iff ui.checkbox_rgb_only_concave
  cases tag <;>
    simp only [computeEdgeWeights, EdgeWeightComputer.new, EdgeWeightComputer.addTerm,
      EdgeWeightComputer.setSmallWeightThreshold, EdgeWeightComputer.setSmallWeightPolicy,
      Ui_MainWindow.enabled, Ui_MainWindow.influence, Ui_MainWindow.only_concave] <;>
    by_cases e1 : ui.checkbox_xyz.isSet = true <;>
    by_cases e2 : ui.checkbox_normal.isSet = true <;>
    by_cases e3 : ui.checkbox_curvature.isSet = true <;>
    by_cases e4 : ui.checkbox_rgb.isSet = true <;>
    simp_all [List.filter]


/-- An `int` that is not negative keeps its value when converted to `size_t`. -/
theorem size_t_of_int_of_nonneg (n : Int) (h0 : 0 ≤ n) (h1 : n < 2 ^ 31) :
    (size_t_of_int n : Int) = n := by
  unfold size_t_of_int
  have h2 : n % 2 ^ 64 = n := Int.emod_eq_of_lt h0 (by omega)
  rw [h2, Int.toNat_of_nonneg h0]

/-- C6: `onButtonUpdateGraphClicked` selects a graph builder for each of the
three pages of the builder tab widget (the cases `0`, `1`, `2` of the switch).
Index `0` yields a voxel-grid builder whose resolution is the voxel-resolution
setting; index `1` yields a nearest-neighbours builder in K-search mode whose
neighbour count is the nearest-neighbours setting (a spin-box value, not
negative, passed to a `size_t` parameter); index `2` yields a
nearest-neighbours builder in radius-search mode whose radius is the radius
setting and whose neighbour cap is the max-neighbours setting; in each of the
three cases the builder exists when `setInputCloud` is called on it. -/
theorem onButtonUpdateGraphClicked_builder (ui : Ui_MainWindow) :
    (ui.tabs_graph_builder = 0 →
      onButtonUpdateGraphClicked.gb ui =
        some (GraphBuilder.voxel_grid { voxel_resolution_ := ui.spinbox_voxel_resolution })) ∧
    (ui.tabs_graph_builder = 1 →
      ∃ b, onButtonUpdateGraphClicked.gb ui = some (GraphBuilder.nearest_neighbors b) ∧
        b.search_mode_ = some SearchMode.NearestK ∧
        b.base.getNumberOfNeighbors = size_t_of_int ui.spinbox_nearest_neighbors ∧
        (0 ≤ ui.spinbox_nearest_neighbors → ui.spinbox_nearest_neighbors < 2 ^ 31 →
          (b.base.getNumberOfNeighbors : Int) = ui.spinbox_nearest_neighbors)) ∧
    (ui.tabs_graph_builder = 2 →
      ∃ b, onButtonUpdateGraphClicked.gb ui = some (GraphBuilder.nearest_neighbors b) ∧
        b.search_mode_ = some SearchMode.Radius ∧
        b.radius_ = some ui.spinbox_radius ∧
        b.base.getNumberOfNeighbors = size_t_of_int ui.spinbox_max_neighbors ∧
        (0 ≤ ui.spinbox_max_neighbors → ui.spinbox_max_neighbors < 2 ^ 31 →
          (b.base.getNumberOfNeighbors : Int) = ui.spinbox_max_neighbors)) ∧
    (ui.tabs_graph_builder = 0 ∨ ui.tabs_graph_builder = 1 ∨ ui.tabs_graph_builder = 2 →
      ∃ gb, onButtonUpdateGraphClicked.gb ui = some gb ∧
        onButtonUpdateGraphClicked ui = some (gb, computeEdgeWeights ui)) := by
  refine ⟨?_, ?_, ?_, ?_⟩
  · intro h
    simp [onButtonUpdateGraphClicked.gb, h]
  · intro h
    refine ⟨(NeighborsBuilder.new.setNumberOfNeighbors
      ui.spinbox_nearest_neighbors).useNearestKSearch, ?_, rfl, rfl, size_t_of_int_of_nonneg _⟩
    simp [onButtonUpdateGraphClicked.gb, h]
  · intro h
    refine ⟨((NeighborsBuilder.new.setNumberOfNeighbors
      ui.spinbox_max_neighbors).setRadius ui.spinbox_radius).useRadiusSearch, ?_, rfl, rfl, rfl,
      size_t_of_int_of_nonneg _⟩
    simp [onButtonUpdateGraphClicked.gb, h]
  · intro h
    rcases h with h | h | h <;>
      simp [onButtonUpdateGraphClicked, onButtonUpdateGraphClicked.gb, h]

/-- Witness for C6 at the three tab indices, the other settings being
the defaults. -/
theorem onButtonUpdateGraphClicked_builder_witness :
    onButtonUpdateGraphClicked.gb { Ui_MainWindow.defaults with tabs_graph_builder := 0 } =
      some (GraphBuilder.voxel_grid { voxel_resolution_ := 5 / 1000 }) ∧
    (∃ b, onButtonUpdateGraphClicked.gb { Ui_MainWindow.defaults with tabs_graph_builder := 1 } =
        some (GraphBuilder.nearest_neighbors b) ∧
        b.search_mode_ = some SearchMode.NearestK ∧
        b.base.getNumberOfNeighbors = size_t_of_int 15 ∧
        ((0 : Int) ≤ 15 → (15 : Int) < 2 ^ 31 → (b.base.getNumberOfNeighbors : Int) = 15)) ∧
    (∃ b, onButtonUpdateGraphClicked.gb { Ui_MainWindow.defaults with tabs_graph_builder := 2 } =
        some (GraphBuilder.nearest_neighbors b) ∧
        b.search_mode_ = some SearchMode.Radius ∧
        b.radius_ = some (1 / 100) ∧
        b.base.getNumberOfNeighbors = size_t_of_int 10 ∧
        ((0 : Int) ≤ 10 → (10 : Int) < 2 ^ 31 → (b.base.getNumberOfNeighbors : Int) = 10)) ∧
    (∃ gb, onButtonUpdateGraphClicked.gb { Ui_MainWindow.defaults with tabs_graph_builder := 2 } =
        some gb ∧
      onButtonUpdateGraphClicked { Ui_MainWindow.defaults with tabs_graph_builder := 2 } =
        some (gb, computeEdgeWeights { Ui_MainWindow.defaults with tabs_graph_builder := 2 })) :=
  ⟨(onButtonUpdateGraphClicked_builder
      { Ui_MainWindow.defaults with tabs_graph_builder := 0 }).1 rfl,
   (onButtonUpdateGraphClicked_builder
      { Ui_MainWindow.defaults with tabs_graph_builder := 1 }).2.1 rfl,
   (onButtonUpdateGraphClicked_builder
      { Ui_MainWindow.defaults with tabs_graph_builder := 2 }).2.2.1 rfl,
   (onButtonUpdateGraphClicked_builder
      { Ui_MainWindow.defaults with tabs_graph_builder := 2 }).2.2.2 (Or.inr (Or.inr rfl))⟩


/-! ### Argument handling of `main` -/

/-- The search loop of `find_argument` fails (returns `-1`) exactly when no
remaining argument equals the name. -/
theorem find_argument_loop_ne (argument_name : String) :
    ∀ (l : List String) (i : Nat),
      find_argument.loop argument_name i l ≠ -1 ↔ argument_name ∈ l := by
  intro l
  induction l with
  | nil => intro i; simp [find_argument.loop]
  | cons a rest ih =>
    intro i
    unfold find_argument.loop
    by_cases h : a = argument_name
    · have hpos : (i : Int) ≠ -1 := by omega
      simp [h, hpos]
    · have h2 : ¬ argument_name = a := fun e => h e.symm
      simp [h, h2, ih]

/-- The switch test `find_switch` holds exactly when one of `argv[1..]` is the switch. -/
theorem find_switch_iff (argv : List String) (argument_name : String) :
    find_switch argv argument_name = true ↔ argument_name ∈ argv.drop 1 := by
  unfold find_switch find_argument
  rw [← find_argument_loop_ne argument_name (argv.drop 1) 1]
  simp

/-- C9: when there is at least one argument, no `--help`, the input cloud loads,
`--no-gui` is given and `--load-seeds` is not, `main` returns `2` having only
loaded the cloud and printed the error (no graph is built, no seeds are
selected, no segmentation is run); when `argc < 2` or `--help` is given,
`main` returns `1` having only printed the usage (nothing is loaded). -/
theorem main_exit_codes (argv : List String) (load_ok : String → Bool) :
    (2 ≤ argv.length → "--help" ∉ argv.drop 1 → load_ok (argv.getD 1 "") = true →
      "--no-gui" ∈ argv.drop 1 → "--load-seeds" ∉ argv.drop 1 →
      main argv load_ok = (2, [Event.load (argv.getD 1 ""), Event.print_no_gui_error])) ∧
    (argv.length < 2 ∨ "--help" ∈ argv.drop 1 →
      main argv load_ok = (1, [Event.print_usage])) := by
  constructor
  · intro hargc hhelp hload hnogui hseeds
    have h1 : ¬ (argv.length < 2 ∨ find_switch argv "--help" = true) := by
      rw [find_switch_iff]
      intro h
      rcases h with h | h
      · omega
      · exact hhelp h
    have h2 : find_switch argv "--no-gui" = true := (find_switch_iff _ _).mpr hnogui
    have h3 : find_switch argv "--load-seeds" = false := by
      cases hb : find_switch argv "--load-seeds" with
      | false => rfl
      | true => exact absurd ((find_switch_iff _ _).mp hb) hseeds
    simp only [main, h1, if_false, hload, h2, h3]
    rfl
  · intro h
    have h1 : argv.length < 2 ∨ find_switch argv "--help" = true := by
      rw [find_switch_iff]
      exact h
    simp only [main, h1, if_true]

/-- Witness for C9: `rws cloud.pcd --no-gui` with a cloud that loads, and
`rws cloud.pcd --help`. -/
theorem main_exit_codes_witness :
    main ["rws", "cloud.pcd", "--no-gui"] (fun _ => true) =
      (2, [Event.load "cloud.pcd", Event.print_no_gui_error]) ∧
    main ["rws", "cloud.pcd", "--help"] (fun _ => true) = (1, [Event.print_usage]) :=
  ⟨(main_exit_codes ["rws", "cloud.pcd", "--no-gui"] (fun _ => true)).1
      (by decide) (by decide) rfl (by decide) (by decide),
   (main_exit_codes ["rws", "cloud.pcd", "--help"] (fun _ => true)).2
      (Or.inr (by decide))⟩


/-! ### Terms and small-weight settings of `computeEdgeWeights` -/

/-- C11: the terms `computeEdgeWeights` adds to the edge weight computer are
exactly those of XYZ, Normal, Curvature, RGB (in this order) whose enable
check box is set; XYZ is added with local normalization, RGB with global
normalization, Normal and Curvature without a normalization argument (the
default); when no check box is set no term is added. -/
theorem computeEdgeWeights_term_sequence (ui : Ui_MainWindow) :
    ((computeEdgeWeights ui).terms.map fun t => (t.tag, t.normalization)) =
      [(TermTag.XYZ, some NormalizationType.NORMALIZATION_LOCAL), (TermTag.Normal, none),
       (TermTag.Curvature, none),
       (TermTag.RGB, some NormalizationType.NORMALIZATION_GLOBAL)].filter
        (fun p => decide (ui.enabled p.1 ≠ CheckState.Unchecked)) ∧
    ((∀ tag, ui.enabled tag = CheckState.Unchecked) → (computeEdgeWeights ui).terms = []) := by
  have h1 := CheckState.isSet_iff ui.checkbox_xyz
  have h2 := CheckState.isSet_iff ui.checkbox_normal
  have h3 := CheckState.isSet_iff ui.checkbox_curvature
  have h4 := CheckState.isSet_iff ui.checkbox_rgb
  constructor
  · simp only [computeEdgeWeights, EdgeWeightComputer.new, EdgeWeightComputer.addTerm,
      EdgeWeightComputer.setSmallWeightThreshold, EdgeWeightComputer.setSmallWeightPolicy,
      Ui_MainWindow.enabled]
    by_cases e1 : ui.checkbox_xyz.isSet = true <;>
    by_cases e2 : ui.checkbox_normal.isSet = true <;>
    by_cases e3 : ui.checkbox_curvature.isSet = true <;>
    by_cases e4 : ui.checkbox_rgb.isSet = true <;>
    simp_all [List.filter]
  · intro h
    have g1 : ui.checkbox_xyz.isSet = false := by
      have := h TermTag.XYZ
      simp only [Ui_MainWindow.enabled] at this
      rw [this]; rfl
    have g2 : ui.checkbox_normal.isSet = false := by
      have := h TermTag.Normal
      simp only [Ui_MainWindow.enabled] at this
      rw [this]; rfl
    have g3 : ui.checkbox_curvature.isSet = false := by
      have := h TermTag.Curvature
      simp only [Ui_MainWindow.enabled] at this
      rw [this]; rfl
    have g4 : ui.checkbox_rgb.isSet = false := by
      have := h TermTag.RGB
      simp only [Ui_MainWindow.enabled] at this
      rw [this]; rfl
    simp [computeEdgeWeights, EdgeWeightComputer.new, EdgeWeightComputer.setSmallWeightThreshold,
      EdgeWeightComputer.setSmallWeightPolicy, g1, g2, g3, g4]

/-- Witness for C11: with the four enable check boxes unchecked no term is added. -/
theorem computeEdgeWeights_term_sequence_witness :
    (∀ tag, ({ Ui_MainWindow.defaults with
        checkbox_xyz := CheckState.Unchecked, checkbox_normal := CheckState.Unchecked,
        checkbox_curvature := CheckState.Unchecked,
        checkbox_rgb := CheckState.Unchecked } : Ui_MainWindow).enabled tag =
          CheckState.Unchecked) ∧
    (computeEdgeWeights { Ui_MainWindow.defaults with
        checkbox_xyz := CheckState.Unchecked, checkbox_normal := CheckState.Unchecked,
        checkbox_curvature := CheckState.Unchecked,
        checkbox_rgb := CheckState.Unchecked }).terms = [] :=
  ⟨fun tag => by cases tag <;> rfl,
   (computeEdgeWeights_term_sequence { Ui_MainWindow.defaults with
        checkbox_xyz := CheckState.Unchecked, checkbox_normal := CheckState.Unchecked,
        checkbox_curvature := CheckState.Unchecked,
        checkbox_rgb := CheckState.Unchecked }).2 (fun tag => by cases tag <;> rfl)⟩

/-- C13: in every state of the widgets, the computer on which `compute` is
invoked has the coerce-to-threshold small-weight policy and the small-weight
threshold `1e-5`, whatever terms are enabled. -/
theorem computeEdgeWeights_small_weight (ui : Ui_MainWindow) :
    (computeEdgeWeights ui).small_weight_policy =
      some SmallWeightPolicy.SMALL_WEIGHT_COERCE_TO_THRESHOLD ∧
    (computeEdgeWeights ui).small_weight_threshold = some (1 / 100000) := by
  constructor
  · rfl
  · rfl


/-! ### Potential display -/

/-- A potential matrix has a column `j` exactly when `j` is less than the
number of its columns. -/
theorem col_isSome_iff (potentials : List (List ℚ)) (j : Nat) :
    (∃ column, col potentials j = some column) ↔ j < potentials.length := by
  unfold col
  constructor
  · rintro ⟨column, h⟩
    by_contra hj
    rw [List.getElem?_eq_none (by omega)] at h
    exact Option.noConfusion h
  · intro hj
    exact ⟨potentials[j], List.getElem?_eq_getElem hj⟩

/-- C12: with two labels and a potential matrix of one column (`L - 1` columns
for `L = 2`), picking the vertex `1`, whose label is `2`, makes the loop body
evaluate `col (2 - 1)`: the index `1` is not a column of the matrix, so the
column index `c - 1` is not valid for the label `c = L`. -/
theorem potential_step_last_label :
    ([[1, 0]] : List (List ℚ)).length = 2 - 1 ∧
    ¬ (2 - 1 < ([[1, 0]] : List (List ℚ)).length) ∧
    col [[1, 0]] (2 - 1) = none ∧
    get_vertex_color ⟨[1, 2]⟩ 1 = 2 ∧
    potential_step ⟨[1, 2]⟩ [[1, 0]] [1, 0] 1 = none ∧
    show_potentials ⟨[1, 2]⟩ [[1, 0]] [1] = none := by
  refine ⟨rfl, by decide, rfl, rfl, rfl, rfl⟩

/-- What one pass of the potential loop displays: a picked vertex with the
label `0` leaves the displayed potential unchanged, a picked vertex with a
label `c ≥ 1` makes the loop body read column `c - 1`, and for a matrix of
`L - 1` columns that column exists for the labels `1 .. L - 1`. -/
theorem potential_step_spec (graph : Graph) (potentials : List (List ℚ)) (potential : List ℚ)
    (index L : Nat) (hcols : potentials.length = L - 1) :
    (get_vertex_color graph index = 0 →
      potential_step graph potentials potential index = some potential) ∧
    (1 ≤ get_vertex_color graph index →
      potential_step graph potentials potential index =
        col potentials (get_vertex_color graph index - 1)) ∧
    (∀ c, 1 ≤ c → c ≤ L - 1 → c - 1 < potentials.length) ∧
    (1 ≤ get_vertex_color graph index → get_vertex_color graph index ≤ L - 1 →
      ∃ column, col potentials (get_vertex_color graph index - 1) = some column ∧
        potential_step graph potentials potential index = some column) := by
  have hstep : 1 ≤ get_vertex_color graph index →
      potential_step graph potentials potential index =
        col potentials (get_vertex_color graph index - 1) := by
    intro h
    have h0 : get_vertex_color graph index ≠ 0 := by omega
    simp [potential_step, h0]
  refine ⟨?_, hstep, ?_, ?_⟩
  · intro h
    simp [potential_step, h]
  · intro c h1 h2
    omega
  · intro h1 h2
    have hlt : get_vertex_color graph index - 1 < potentials.length := by omega
    obtain ⟨column, hc⟩ := (col_isSome_iff potentials _).mpr hlt
    exact ⟨column, hc, by rw [hstep h1, hc]⟩

/-- For every number `L ≥ 1` of labels, a potential matrix of `L - 1` columns
and a picked vertex with the last label `L`, the loop body reads a column the
matrix does not have. -/
theorem potential_step_label_L (graph : Graph) (potentials : List (List ℚ))
    (potential : List ℚ) (index L : Nat) (hL : 1 ≤ L) (hcols : potentials.length = L - 1)
    (hlabel : get_vertex_color graph index = L) :
    potential_step graph potentials potential index = none := by
  have h0 : get_vertex_color graph index ≠ 0 := by omega
  have hge : potentials.length ≤ get_vertex_color graph index - 1 := by omega
  simp [potential_step, h0, col, List.getElem?_eq_none hge]

/-! ### Cluster files -/

/-- When the loop bound does not exceed the number of clusters, every access
`clusters[j]` of the save-clusters loop is inside the vector. -/
theorem save_clusters_loop_access (clusters : List PointIndices) (bound : Nat)
    (hb : bound ≤ clusters.length) :
    ∀ (n i : Nat), bound - i = n →
      ∀ j, ClusterEvent.access j ∈ save_clusters_loop clusters bound i → j < clusters.length := by
  intro n
  induction n with
  | zero =>
    intro i hn j hj
    have hi : ¬ i < bound := by omega
    rw [save_clusters_loop] at hj
    simp [hi] at hj
  | succ n ih =>
    intro i hn j hj
    have hi : i < bound := by omega
    have hlen : i < clusters.length := by omega
    rw [save_clusters_loop] at hj
    simp only [hi, if_true, List.getElem?_eq_getElem hlen] at hj
    have hrec := ih (i + 1) (by omega) j
    split_ifs at hj with hc
    · simp only [List.mem_cons] at hj
      rcases hj with hj | hj | hj
      · injection hj with hj
        omega
      · exact absurd hj (by simp)
      · exact hrec hj
    · simp only [List.mem_cons] at hj
      rcases hj with hj | hj
      · injection hj with hj
        omega
      · exact hrec hj

/-- For a list of clusters that is not empty, every access `clusters[j]` of the
save-clusters block is inside the vector. -/
theorem save_clusters_access_valid (clusters : List PointIndices) (hne : clusters ≠ [])
    (hsize : clusters.length < 2 ^ 64) :
    ∀ j, ClusterEvent.access j ∈ save_clusters clusters → j < clusters.length := by
  have hpos : 0 < clusters.length := List.length_pos.mpr hne
  have hbound : size_t_sub clusters.length 1 = clusters.length - 1 := by
    unfold size_t_sub
    have h1 : 1 % 2 ^ 64 = 1 := by norm_num
    rw [h1]
    have h2 : clusters.length + 2 ^ 64 - 1 = (clusters.length - 1) + 2 ^ 64 := by omega
    rw [h2, Nat.add_mod_right]
    exact Nat.mod_eq_of_lt (by omega)
  intro j hj
  unfold save_clusters at hj
  rw [hbound] at hj
  exact save_clusters_loop_access clusters (clusters.length - 1) (by omega) _ 0 rfl j hj

/-- C15: for the empty list of clusters the loop bound `clusters.size () - 1`
wraps around to `2 ^ 64 - 1`, the loop body is entered with `i = 0`, and the
access `clusters[0]` is outside the (empty) vector. -/
theorem save_clusters_empty :
    size_t_sub ([] : List PointIndices).length 1 = 2 ^ 64 - 1 ∧
    save_clusters [] = [ClusterEvent.access 0] ∧
    ¬ (0 < ([] : List PointIndices).length) := by
  refine ⟨by decide, ?_, by decide⟩
  unfold save_clusters
  rw [save_clusters_loop]
  simp [size_t_sub]



/-! ### Saving and loading the configuration -/

/-- Reading back the integer value of a check state gives the check state. -/
theorem CheckState.ofInt_toInt (c : CheckState) : CheckState.ofInt c.toInt = c := by
  cases c <;> rfl

/-- The value put under a path is the value found under it. -/
theorem ptree.find_put_same (pt : ptree) (path : String) (value : PtValue) :
    (pt.put path value).find path = some value := by
  induction pt with
  | nil => simp [ptree.put, ptree.find]
  | cons e rest ih =>
    obtain ⟨k, v⟩ := e
    by_cases h : k = path
    · simp [ptree.put, ptree.find, h]
    · simp [ptree.put, ptree.find, h, ih]

/-- Putting a value under a path does not change what is found under another path. -/
theorem ptree.find_put_ne (pt : ptree) (path other : String) (value : PtValue)
    (h : path ≠ other) : (pt.put path value).find other = pt.find other := by
  induction pt with
  | nil => simp [ptree.put, ptree.find, h]
  | cons e rest ih =>
    obtain ⟨k, v⟩ := e
    by_cases hk : k = path
    · subst hk
      simp [ptree.put, ptree.find, h]
    · by_cases ho : k = other
      · subst ho
        simp [ptree.put, ptree.find, hk]
      · simp [ptree.put, ptree.find, hk, ho, ih]

/-- An `int` written to the tree reads back as that `int`. -/
theorem get_int_number (pt : ptree) (path : String) (d n : Int)
    (h : pt.find path = some (PtValue.number n)) (h0 : -(2 : Int) ^ 31 ≤ n) (h1 : n < 2 ^ 31) :
    pt.get_int path d = n := by
  unfold ptree.get_int
  rw [h]
  norm_num at h0 h1
  simp
  intro h2
  have := h2 h0
  omega

/-- A check state written to the tree reads back as that check state. -/
theorem get_int_checkState (pt : ptree) (path : String) (d : Int) (c : CheckState)
    (h : pt.find path = some (PtValue.number c.toInt)) :
    CheckState.ofInt (pt.get_int path d) = c := by
  rw [get_int_number pt path d c.toInt h (by cases c <;> decide) (by cases c <;> decide)]
  exact CheckState.ofInt_toInt c

/-- A `double` written to the tree reads back as that `double`. -/
theorem get_double_number (pt : ptree) (path : String) (d q : ℚ)
    (h : pt.find path = some (PtValue.number q)) : pt.get_double path d = q := by
  unfold ptree.get_double
  rw [h]

/-- Neither `saveConfig` nor `loadConfig` touches the "only concave" check box
of the XYZ term: after saving in the state `s` and loading in the state `t` it
still has its value from `t`. -/
theorem save_then_load_xyz_only_concave (s t : Ui_MainWindow) :
    (save_then_load s t).checkbox_xyz_only_concave = t.checkbox_xyz_only_concave := by
  simp only [save_then_load, loadConfig]

/-- Every setting other than the "only concave" check box of the XYZ term is
restored by saving in the state `s` and loading in the state `t` (integers
within the range of `int`). -/
theorem save_then_load_restores_others (s t : Ui_MainWindow)
    (h1 : -(2 : Int) ^ 31 ≤ s.tabs_graph_builder ∧ s.tabs_graph_builder < 2 ^ 31)
    (h2 : -(2 : Int) ^ 31 ≤ s.spinbox_nearest_neighbors ∧ s.spinbox_nearest_neighbors < 2 ^ 31)
    (h3 : -(2 : Int) ^ 31 ≤ s.spinbox_max_neighbors ∧ s.spinbox_max_neighbors < 2 ^ 31) :
    save_then_load s t = { s with checkbox_xyz_only_concave := t.checkbox_xyz_only_concave } := by
  simp only [save_then_load, loadConfig]
  rw [get_int_number (saveConfig s) "GraphBuilder.Type" 0 s.tabs_graph_builder
        (by simp [saveConfig, ptree.find_put_same, ptree.find_put_ne]) h1.1 h1.2,
      get_int_number (saveConfig s) "GraphBuilder.KNN.NearestNeighbors" 15
        s.spinbox_nearest_neighbors
        (by simp [saveConfig, ptree.find_put_same, ptree.find_put_ne]) h2.1 h2.2,
      get_int_number (saveConfig s) "GraphBuilder.Radius.MaxNeighbors" 10
        s.spinbox_max_neighbors
        (by simp [saveConfig, ptree.find_put_same, ptree.find_put_ne]) h3.1 h3.2,
      get_int_checkState (saveConfig s) "EdgeWeights.XYZ.Enabled" 2 s.checkbox_xyz
        (by simp [saveConfig, ptree.find_put_same, ptree.find_put_ne]),
      get_int_checkState (saveConfig s) "EdgeWeights.Normal.Enabled" 2 s.checkbox_normal
        (by simp [saveConfig, ptree.find_put_same, ptree.find_put_ne]),
      get_int_checkState (saveConfig s) "EdgeWeights.Normal.OnlyConcave" 2
        s.checkbox_normal_only_concave
        (by simp [saveConfig, ptree.find_put_same, ptree.find_put_ne]),
      get_int_checkState (saveConfig s) "EdgeWeights.Curvature.Enabled" 2 s.checkbox_curvature
        (by simp [saveConfig, ptree.find_put_same, ptree.find_put_ne]),
      get_int_checkState (saveConfig s) "EdgeWeights.Curvature.OnlyConcave" 2
        s.checkbox_curvature_only_concave
        (by simp [saveConfig, ptree.find_put_same, ptree.find_put_ne]),
      get_int_checkState (saveConfig s) "EdgeWeights.RGB.Enabled" 2 s.checkbox_rgb
        (by simp [saveConfig, ptree.find_put_same, ptree.find_put_ne]),
      get_int_checkState (saveConfig s) "EdgeWeights.RGB.OnlyConcave" 0
        s.checkbox_rgb_only_concave
        (by simp [saveConfig, ptree.find_put_same, ptree.find_put_ne]),
      get_double_number (saveConfig s) "GraphBuilder.VoxelGrid.Resolution" _
        s.spinbox_voxel_resolution
        (by simp [saveConfig, ptree.find_put_same, ptree.find_put_ne]),
      get_double_number (saveConfig s) "GraphBuilder.Radius.Radius" _ s.spinbox_radius
        (by simp [saveConfig, ptree.find_put_same, ptree.find_put_ne]),
      get_double_number (saveConfig s) "EdgeWeights.XYZ.Influence" _ s.spinbox_xyz_influence
        (by simp [saveConfig, ptree.find_put_same, ptree.find_put_ne]),
      get_double_number (saveConfig s) "EdgeWeights.Normal.Influence" _
        s.spinbox_normal_influence
        (by simp [saveConfig, ptree.find_put_same, ptree.find_put_ne]),
      get_double_number (saveConfig s) "EdgeWeights.Curvature.Influence" _
        s.spinbox_curvature_influence
        (by simp [saveConfig, ptree.find_put_same, ptree.find_put_ne]),
      get_double_number (saveConfig s) "EdgeWeights.RGB.Influence" _ s.spinbox_rgb_influence
        (by simp [saveConfig, ptree.find_put_same, ptree.find_put_ne])]

/-- C14: saving with the XYZ "only concave" check box checked and loading in a
state where it is unchecked does not restore it: the value written under
`EdgeWeights.XYZ.OnlyConcave` is the one of the RGB check box (`0`), and after
loading the XYZ check box is still unchecked. -/
theorem save_then_load_loses_xyz_only_concave :
    ({ Ui_MainWindow.defaults with
        checkbox_xyz_only_concave := CheckState.Checked } : Ui_MainWindow).checkbox_xyz_only_concave =
      CheckState.Checked ∧
    (saveConfig { Ui_MainWindow.defaults with
        checkbox_xyz_only_concave := CheckState.Checked }).find "EdgeWeights.XYZ.OnlyConcave" =
      some (PtValue.number 0) ∧
    (save_then_load { Ui_MainWindow.defaults with checkbox_xyz_only_concave := CheckState.Checked }
        Ui_MainWindow.defaults).checkbox_xyz_only_concave = CheckState.Unchecked := by
  refine ⟨rfl, ?_, ?_⟩
  · simp [saveConfig, ptree.find_put_same, ptree.find_put_ne, Ui_MainWindow.defaults,
      CheckState.toInt]
  · rw [save_then_load_xyz_only_concave]
    rfl


end Tcs
